import Mathlib

/-!
Shallow embedding of the unification program in `src/LAB8/lab8.3.py`.

Python values relevant to the algorithm are strings, lists and tuples
(lists are converted to tuples before being stored in the substitution
dictionary, and a tuple never compares equal to a list).  The
substitution is a Python dict with insertion order, modelled as an
association list; insertion appends at the end and lookup takes the
first (unique) matching key.

The mutually recursive functions `unify` and `unify_var` of the source
do not terminate on all inputs, so they are embedded as fuel-indexed
functions: `none` means the fuel was exhausted, `some r` means the
source computation returns the result `r` (either the string
"FAILURE", modelled as `Res.fail`, or the substitution dictionary,
modelled as `Res.ok`).  A call that diverges in Python is exactly a
call that returns `none` at every fuel.
-/

namespace Lab8

/-- A Python value as used by the program: a string, a list of values,
or a tuple of values.  Lists and tuples with the same elements are
different values (Python `==` distinguishes them), hence two distinct
constructors. -/
inductive PyTerm : Type where
  | str : String → PyTerm
  | list : List PyTerm → PyTerm
  | tuple : List PyTerm → PyTerm

mutual
/-- Structural equality of Python values (`==`): a tuple never equals a
list, even with the same elements. -/
def decEqPyTerm : (a b : PyTerm) → Decidable (a = b)
  | .str s1, .str s2 =>
    if h : s1 = s2 then .isTrue (by rw [h]) else .isFalse (fun he => h (PyTerm.str.inj he))
  | .str _, .list _ => .isFalse (fun he => PyTerm.noConfusion he)
  | .str _, .tuple _ => .isFalse (fun he => PyTerm.noConfusion he)
  | .list _, .str _ => .isFalse (fun he => PyTerm.noConfusion he)
  | .list xs, .list ys =>
    match decEqPyList xs ys with
    | .isTrue h => .isTrue (by rw [h])
    | .isFalse h => .isFalse (fun he => h (PyTerm.list.inj he))
  | .list _, .tuple _ => .isFalse (fun he => PyTerm.noConfusion he)
  | .tuple _, .str _ => .isFalse (fun he => PyTerm.noConfusion he)
  | .tuple _, .list _ => .isFalse (fun he => PyTerm.noConfusion he)
  | .tuple xs, .tuple ys =>
    match decEqPyList xs ys with
    | .isTrue h => .isTrue (by rw [h])
    | .isFalse h => .isFalse (fun he => h (PyTerm.tuple.inj he))

/-- Elementwise equality of two Python sequences. -/
def decEqPyList : (a b : List PyTerm) → Decidable (a = b)
  | [], [] => .isTrue rfl
  | [], _ :: _ => .isFalse (fun he => List.noConfusion he)
  | _ :: _, [] => .isFalse (fun he => List.noConfusion he)
  | a :: as, b :: bs =>
    match decEqPyTerm a b with
    | .isFalse h => .isFalse (fun he => h (List.cons.inj he).1)
    | .isTrue h1 =>
      match decEqPyList as bs with
      | .isTrue h2 => .isTrue (by rw [h1, h2])
      | .isFalse h2 => .isFalse (fun he => h2 (List.cons.inj he).2)
end

instance : DecidableEq PyTerm := decEqPyTerm

/-- The substitution dictionary: insertion-ordered key/value pairs. -/
abbrev Subst := List (PyTerm × PyTerm)

/-- Python dict lookup: first (unique) matching key. -/
def lookup : Subst → PyTerm → Option PyTerm
  | [], _ => none
  | (k, v) :: rest, key => if key = k then some v else lookup rest key

/-- Python dict insertion `subst[k] = v` (the program only inserts keys
that are not yet present, so appending preserves dict semantics). -/
def bindS (s : Subst) (k v : PyTerm) : Subst := s ++ [(k, v)]

/-- A character is cased (ASCII model of Python's notion used by
`str.islower`). -/
def pyCased (c : Char) : Bool := c.isLower || c.isUpper

/-- Python `s.islower()`: at least one cased character and every cased
character lowercase. -/
def pyIslower (s : String) : Bool :=
  s.data.any pyCased && s.data.all (fun c => !pyCased c || c.isLower)

/-- `isinstance(x, str) and x.islower()` — the program's test for "x is
a variable" (lab8.3.py lines 35 and 37). -/
def isVarStr : PyTerm → Bool
  | .str s => pyIslower s
  | _ => false

/-- `tuple(x) if isinstance(x, list) else x` (lab8.3.py line 21). -/
def toTupleIfList : PyTerm → PyTerm
  | .list xs => .tuple xs
  | t => t

mutual
/-- `occurs_check(var, x)` of lab8.3.py lines 3-9: syntactic occurrence,
descending only into lists (not tuples), not consulting any store. -/
def occurs_check (var : PyTerm) (x : PyTerm) : Bool :=
  if var = x then true
  else
    match x with
    | .list xs => occursAux var xs
    | _ => false

/-- `any(occurs_check(var, xi) for xi in x)` over the elements of a list. -/
def occursAux (var : PyTerm) : List PyTerm → Bool
  | [] => false
  | y :: ys => occurs_check var y || occursAux var ys
end

/-- The result of a `unify` call in the source: the string "FAILURE" or
the substitution dictionary. -/
inductive Res : Type where
  | fail : Res
  | ok : Subst → Res
deriving DecidableEq

/-- The tail of `unify_var` (lab8.3.py lines 17-22): occurs-check then
insert the binding, converting a list to a tuple before storing. -/
def unifyVarTail (var x : PyTerm) (s : Subst) : Option Res :=
  if occurs_check var x then some .fail
  else some (.ok (bindS s var (toTupleIfList x)))

mutual
/-- `unify(x, y, subst)` of lab8.3.py lines 24-54, fuel-indexed.
`none` means fuel ran out. -/
def unify : Nat → PyTerm → PyTerm → Subst → Option Res
  | 0, _, _, _ => none
  | n + 1, x, y, s =>
    if x = y then some (.ok s)
    else if isVarStr x then unify_var n x y s
    else if isVarStr y then unify_var n y x s
    else
      match x, y with
      | .list xs, .list ys =>
        if xs.length ≠ ys.length then some .fail
        else
          match xs, ys with
          | x0 :: xt, y0 :: yt =>
            if x0 ≠ y0 then some .fail
            else unifyArgs n xt yt s
          | _, _ => some (.ok s)
      | _, _ => some .fail

/-- `unify_var(var, x, subst)` of lab8.3.py lines 11-22, fuel-indexed. -/
def unify_var : Nat → PyTerm → PyTerm → Subst → Option Res
  | 0, _, _, _ => none
  | n + 1, var, x, s =>
    match lookup s var with
    | some b => unify n b x s
    | none =>
      match x with
      | .list xs | .tuple xs =>
        match lookup s (.tuple xs) with
        | some b => unify n var b s
        | none => unifyVarTail var x s
      | _ => unifyVarTail var x s

/-- The loop `for xi, yi in zip(x[1:], y[1:])` of lab8.3.py lines 48-51,
threading the substitution and short-circuiting on failure. -/
def unifyArgs : Nat → List PyTerm → List PyTerm → Subst → Option Res
  | 0, _, _, _ => none
  | _ + 1, [], _, s => some (.ok s)
  | _ + 1, _ :: _, [], s => some (.ok s)
  | n + 1, xh :: xt, yh :: yt, s =>
    match unify n xh yh s with
    | none => none
    | some .fail => some .fail
    | some (.ok s1) => unifyArgs n xt yt s1
end

/-- `unify_and_check(expr1, expr2)` of lab8.3.py lines 56-64, fuel-indexed. -/
def unify_and_check (n : Nat) (e1 e2 : PyTerm) : Option (Bool × Option Subst) :=
  match unify n e1 e2 [] with
  | none => none
  | some .fail => some (false, none)
  | some (.ok s) => some (true, some s)

/-- Modelled from the spec: the source has no dereference routine, so
`resolve_chain` follows §4.2 of the spec — "if term is a bound
Variable, follow bindings transitively until reaching an unbound
Variable, an Atom, or a Compound".  Fuel-indexed because on the cyclic
stores the program can actually build, the chain never ends. -/
def resolve_chain : Nat → Subst → PyTerm → PyTerm
  | 0, _, t => t
  | n + 1, s, t =>
    if isVarStr t then
      match lookup s t with
      | none => t
      | some b => resolve_chain n s b
    else t

/-- The store `{"x": "y", "y": "x"}` that the engine itself builds from
the empty store by `unify("x","y",{})` followed by `unify("y","x",·)`:
its two entries form a cyclic binding chain. -/
def cycStore : Subst := [(.str "x", .str "y"), (.str "y", .str "x")]

/-! ## Helper lemmas -/

/-- On the cyclic store, `unify("x","a",·)` and `unify("y","a",·)` call
each other forever: at every fuel the interpreter runs out. -/
theorem unify_cyc_loop (n : Nat) :
    unify n (.str "x") (.str "a") cycStore = none ∧
    unify n (.str "y") (.str "a") cycStore = none ∧
    unify_var n (.str "x") (.str "a") cycStore = none ∧
    unify_var n (.str "y") (.str "a") cycStore = none := by
  induction n with
  | zero => exact ⟨rfl, rfl, rfl, rfl⟩
  | succ n ih =>
    obtain ⟨h1, h2, h3, h4⟩ := ih
    exact ⟨h3, h4, h2, h1⟩

/-- The argument loop of `unify(["p","x","y","x"], ["p","y","x","a"], {})`
exhausts every fuel: the first two pairs build the cyclic store, the
third pair then loops. -/
theorem unifyArgs_cyc_none (n : Nat) :
    unifyArgs n [.str "x", .str "y", .str "x"] [.str "y", .str "x", .str "a"] [] = none := by
  match n with
  | 0 => rfl
  | 1 => rfl
  | 2 => rfl
  | 3 => rfl
  | n + 4 =>
    show unifyArgs (n + 2) [.str "x"] [.str "a"] cycStore = none
    have e : unifyArgs (n + 2) [.str "x"] [.str "a"] cycStore =
        match unify (n + 1) (.str "x") (.str "a") cycStore with
        | none => none
        | some Res.fail => some Res.fail
        | some (Res.ok s1) => unifyArgs (n + 1) [] [] s1 := rfl
    rw [e, (unify_cyc_loop (n + 1)).1]

/-- `unify(["p","x","y","x"], ["p","y","x","a"], {})` runs out of every
fuel: the source recursion is infinite on this input. -/
theorem unify_cyc_input_none (n : Nat) :
    unify n (.list [.str "p", .str "x", .str "y", .str "x"])
      (.list [.str "p", .str "y", .str "x", .str "a"]) [] = none := by
  match n with
  | 0 => rfl
  | n + 1 =>
    show unifyArgs n [.str "x", .str "y", .str "x"] [.str "y", .str "x", .str "a"] [] = none
    exact unifyArgs_cyc_none n

/-- Dict lookup is stable under appending entries on the right. -/
theorem lookup_append (s t : Subst) (k v : PyTerm) (h : lookup s k = some v) :
    lookup (s ++ t) k = some v := by
  induction s with
  | nil => exact absurd h (by simp [lookup])
  | cons p rest ih =>
    obtain ⟨k1, v1⟩ := p
    by_cases hk : k = k1
    · subst hk
      simpa [lookup] using h
    · simp only [List.cons_append, lookup, if_neg hk] at h ⊢
      exact ih h

/-- The binding step of `unify_var` appends exactly one entry. -/
theorem unifyVarTail_extends (v x : PyTerm) (s s' : Subst)
    (h : unifyVarTail v x s = some (.ok s')) : ∃ t, s' = s ++ t := by
  simp only [unifyVarTail] at h
  split at h
  · exact absurd h (by simp)
  · have hs : bindS s v (toTupleIfList x) = s' := by simpa using h
    exact ⟨[(v, toTupleIfList x)], hs.symm⟩

/-- Every successful call of the engine only appends new entries to the
substitution it was given: existing bindings are never removed or
overwritten. -/
theorem unify_extends (n : Nat) :
    (∀ x y s s', unify n x y s = some (.ok s') → ∃ t, s' = s ++ t) ∧
    (∀ v x s s', unify_var n v x s = some (.ok s') → ∃ t, s' = s ++ t) ∧
    (∀ a b s s', unifyArgs n a b s = some (.ok s') → ∃ t, s' = s ++ t) := by
  induction n with
  | zero =>
    refine ⟨?_, ?_, ?_⟩ <;> exact fun x y s s' h => absurd h (by simp [unify, unify_var, unifyArgs])
  | succ n ih =>
    obtain ⟨ihU, ihV, ihA⟩ := ih
    refine ⟨?_, ?_, ?_⟩
    · intro x y s s' h
      simp only [unify] at h
      split at h
      · have hs : s = s' := by simpa using h
        exact ⟨[], by rw [← hs, List.append_nil]⟩
      split at h
      · exact ihV _ _ _ _ h
      split at h
      · exact ihV _ _ _ _ h
      split at h
      · split at h
        · exact absurd h (by simp)
        · split at h
          · split at h
            · exact absurd h (by simp)
            · exact ihA _ _ _ _ h
          · have hs : s = s' := by simpa using h
            exact ⟨[], by rw [← hs, List.append_nil]⟩
      · exact absurd h (by simp)
    · intro v x s s' h
      simp only [unify_var] at h
      split at h
      · exact ihU _ _ _ _ h
      · split at h
        · split at h
          · exact ihU _ _ _ _ h
          · exact unifyVarTail_extends _ _ _ _ h
        · split at h
          · exact ihU _ _ _ _ h
          · exact unifyVarTail_extends _ _ _ _ h
        · exact unifyVarTail_extends _ _ _ _ h
    · intro a b s s' h
      match a, b with
      | [], _ =>
        have hs : s = s' := by simpa [unifyArgs] using h
        exact ⟨[], by rw [← hs, List.append_nil]⟩
      | _ :: _, [] =>
        have hs : s = s' := by simpa [unifyArgs] using h
        exact ⟨[], by rw [← hs, List.append_nil]⟩
      | xh :: xt, yh :: yt =>
        simp only [unifyArgs] at h
        split at h
        · exact absurd h (by simp)
        · exact absurd h (by simp)
        · rename_i s1 heq
          obtain ⟨t1, ht1⟩ := ihU _ _ _ _ heq
          obtain ⟨t2, ht2⟩ := ihA _ _ _ _ h
          exact ⟨t1 ++ t2, by rw [ht2, ht1, List.append_assoc]⟩

/-! ## Claims -/

/-- C1: the claim says every `unify` call on finite terms from the empty
store terminates.  It is false: on
`unify(["p","x","y","x"], ["p","y","x","a"], {})` the first two argument
pairs build the cyclic store `{x: "y", y: "x"}` (the occurs-check never
consults the store), and on the third pair `unify("x","a",·)` and
`unify("y","a",·)` call each other forever — the fueled interpreter
exhausts every fuel. -/
theorem unify_cyclic_input_diverges (n : Nat) :
    unify n (.list [.str "p", .str "x", .str "y", .str "x"])
      (.list [.str "p", .str "y", .str "x", .str "a"]) [] = none :=
  unify_cyc_input_none n

/-- C2: the claim says no reachable store entry binds a variable to a
term whose chain resolution contains that variable.  False: two
engine steps from the empty store produce `{x: "y", y: "x"}`, where the
entry for "y" is "x" and dereferencing "x" leads straight back to "y". -/
theorem cyclic_store_reachable :
    unify 2 (.str "x") (.str "y") [] = some (.ok [(.str "x", .str "y")]) ∧
    unify 2 (.str "y") (.str "x") [(.str "x", .str "y")] = some (.ok cycStore) ∧
    lookup cycStore (.str "y") = some (.str "x") ∧
    lookup cycStore (.str "x") = some (.str "y") ∧
    resolve_chain 1 cycStore (.str "x") = .str "y" :=
  ⟨rfl, rfl, rfl, rfl, rfl⟩

/-- C3: the claim says `unify(x,y,{})` succeeds iff `unify(y,x,{})`
succeeds.  False: with x = ["p","x","y","x"] and y = ["p","y","x","a"],
`unify(x,y,{})` never returns at any fuel (infinite recursion), while
`unify(y,x,{})` succeeds with `{y: "x", x: "y", a: "x"}`. -/
theorem unify_success_not_symmetric :
    (∀ n, unify n (.list [.str "p", .str "x", .str "y", .str "x"])
      (.list [.str "p", .str "y", .str "x", .str "a"]) [] = none) ∧
    (∀ n, unify (n + 6) (.list [.str "p", .str "y", .str "x", .str "a"])
      (.list [.str "p", .str "x", .str "y", .str "x"]) [] =
      some (.ok [(.str "y", .str "x"), (.str "x", .str "y"), (.str "a", .str "x")])) :=
  ⟨unify_cyc_input_none, fun _ => rfl⟩

/-- C4 counterexample: the claim says failing calls return one of two
distinct, inspectable failure outcomes.  False: an occurs-check failure
and a structural mismatch return the very same value (the string
"FAILURE", modelled `Res.fail`). -/
theorem failure_values_indistinguishable :
    unify 3 (.str "x") (.list [.str "f", .str "x"]) [] = unify 1 (.str "A") (.str "B") [] ∧
    unify 1 (.str "A") (.str "B") [] = some .fail :=
  ⟨rfl, rfl⟩

/-- C4 amended: every failing `unify` call returns the single
undifferentiated value "FAILURE", and `unify_and_check` collapses it
further to `(False, None)`; no occurs/structural distinction exists. -/
theorem unify_failures_single_value (n : Nat) (e1 e2 : PyTerm)
    (h : unify n e1 e2 [] = some .fail) :
    unify_and_check n e1 e2 = some (false, none) := by
  simp [unify_and_check, h]

/-- C4 witness: the amended theorem applied to `unify("A","B",{})`. -/
theorem unify_failures_single_value_witness :
    unify_and_check 1 (PyTerm.str "A") (PyTerm.str "B") = some (false, none) :=
  unify_failures_single_value 1 (.str "A") (.str "B") rfl

/-- C5 counterexample: the claim says `unify("a","b",{})` fails with a
structural mismatch.  False: "a" and "b" are lowercase, hence treated
as variables, and the call succeeds binding "a" to "b". -/
theorem unify_a_b_succeeds :
    unify 2 (.str "a") (.str "b") [] = some (.ok [(.str "a", .str "b")]) := rfl

/-- C5 amended: `unify("a","a",{})` succeeds with the store unchanged;
`unify("a","b",{})` also succeeds, binding "a" to "b", because every
lowercase string is a variable; only non-lowercase constants such as
"A" and "B" mismatch structurally. -/
theorem unify_atoms_behavior (n : Nat) :
    unify (n + 1) (.str "a") (.str "a") [] = some (.ok []) ∧
    unify (n + 2) (.str "a") (.str "b") [] = some (.ok [(.str "a", .str "b")]) ∧
    unify (n + 1) (.str "A") (.str "A") [] = some (.ok []) ∧
    unify (n + 1) (.str "A") (.str "B") [] = some .fail :=
  ⟨rfl, rfl, rfl, rfl⟩

/-- C6: after `unify("x","y",{})` and then `unify("y","a",·)` on the
resulting store, transitively dereferencing "x" through the final store
yields "a". -/
theorem chained_binding_resolves (n : Nat) :
    unify (n + 2) (.str "x") (.str "y") [] = some (.ok [(.str "x", .str "y")]) ∧
    unify (n + 2) (.str "y") (.str "a") [(.str "x", .str "y")] =
      some (.ok [(.str "x", .str "y"), (.str "y", .str "a")]) ∧
    resolve_chain (n + 2) [(.str "x", .str "y"), (.str "y", .str "a")] (.str "x") =
      .str "a" := by
  refine ⟨rfl, rfl, ?_⟩
  cases n <;> rfl

/-- C7: `unify(["p","x",["f","y"]], ["p","a",["f","z"]], {})` succeeds
and the resulting substitution binds exactly x to "a" and y to "z". -/
theorem unify_compound_example (n : Nat) :
    unify (n + 7) (.list [.str "p", .str "x", .list [.str "f", .str "y"]])
      (.list [.str "p", .str "a", .list [.str "f", .str "z"]]) [] =
      some (.ok [(.str "x", .str "a"), (.str "y", .str "z")]) := rfl

/-- C8 counterexample: the claim says `unify("x",["f","x"],{})` fails
with a distinct `OccursCheckFailure` kind.  The call does fail, but
its result is the very same value as that of an unrelated structural
mismatch — no failure kind exists. -/
theorem occurs_failure_same_value :
    unify 3 (.str "x") (.list [.str "f", .str "x"]) [] =
      unify 1 (.str "A") (.list [.str "f"]) [] ∧
    unify 1 (.str "A") (.list [.str "f"]) [] = some .fail :=
  ⟨rfl, rfl⟩

/-- C8 amended: `unify("x",["f","x"],{})` fails, and the failure comes
from the occurs-check branch (`occurs_check` is true on this input),
but the returned value is the undifferentiated "FAILURE". -/
theorem unify_occurs_fails_untagged (n : Nat) :
    unify (n + 2) (.str "x") (.list [.str "f", .str "x"]) [] = some .fail ∧
    occurs_check (.str "x") (.list [.str "f", .str "x"]) = true :=
  ⟨rfl, rfl⟩

/-- C9: within one unification call a bound variable is never rebound:
on success the returned store is the input store with entries appended,
and every binding of the input store is still present with the same
value. -/
theorem unify_store_monotone (n : Nat) (x y : PyTerm) (s s' : Subst)
    (h : unify n x y s = some (.ok s')) :
    (∃ t, s' = s ++ t) ∧ ∀ k v, lookup s k = some v → lookup s' k = some v := by
  obtain ⟨t, ht⟩ := (unify_extends n).1 x y s s' h
  subst ht
  exact ⟨⟨t, rfl⟩, fun k v hk => lookup_append s t k v hk⟩

/-- C9 witness: `unify("y","a",·)` on the store `{x: "y"}` succeeds and
the pre-existing binding of "x" survives unchanged. -/
theorem unify_store_monotone_witness :
    lookup [(PyTerm.str "x", PyTerm.str "y"), (PyTerm.str "y", PyTerm.str "a")]
      (PyTerm.str "x") = some (PyTerm.str "y") :=
  (unify_store_monotone 2 (.str "y") (.str "a") [(.str "x", .str "y")]
      [(.str "x", .str "y"), (.str "y", .str "a")] rfl).2 (.str "x") (.str "y") rfl

/-- C10: for every lowercase variable v and list term t not containing
v, `unify(v,t,{})` succeeds storing the binding as a tuple, and
re-running `unify(v,t,·)` on the resulting store fails, because the
stored tuple never compares equal to the list t. -/
theorem tuple_binding_breaks_reunify (v : String) (ts : List PyTerm)
    (h1 : pyIslower v = true)
    (h2 : occurs_check (.str v) (.list ts) = false) (n : Nat) :
    unify (n + 2) (.str v) (.list ts) [] = some (.ok [(.str v, .tuple ts)]) ∧
    unify (n + 3) (.str v) (.list ts) [(.str v, .tuple ts)] = some .fail := by
  constructor
  · simp [unify, unify_var, unifyVarTail, isVarStr, lookup, toTupleIfList, bindS, h1, h2]
  · simp [unify, unify_var, unifyVarTail, isVarStr, lookup, toTupleIfList, bindS, h1, h2]

/-- C10 witness: the theorem applied to v = "x" and t = ["f","a"]. -/
theorem tuple_binding_breaks_reunify_witness :
    unify 3 (PyTerm.str "x") (PyTerm.list [PyTerm.str "f", PyTerm.str "a"])
      [(PyTerm.str "x", PyTerm.tuple [PyTerm.str "f", PyTerm.str "a"])] = some Res.fail :=
  (tuple_binding_breaks_reunify "x" [.str "f", .str "a"] (by decide) (by decide) 0).2

end Lab8
